import Mathlib

/-! TodoAppPro: `src/App.js`

A shallow embedding of the two React components of `src/App.js`:

* `App` (lines 74-150): the component state `task` (the text field) and `tasks` (the ordered
  task list), with the handlers `addTask`, `deleteTask`, `toggleComplete` and the derived values
  `pendingCount`, `countMessage`, `showTooMany`;
* `TodoItem` (lines 14-71): the per-row state `layout` and the geometry of the diagonal line
  drawn over a completed row.

State is passed explicitly: a handler is a function from the state before the call to the state
after it.  JavaScript strings are modelled by `String`, arrays by `List`.
-/

namespace TodoApp

/-! ## Strings: `String.prototype.trim` -/

/-- ECMAScript `WhiteSpace` code points: TAB, VT, FF, ZWNBSP and the Unicode `Zs` category. -/
def isWhiteSpace (c : Char) : Bool :=
  let n := c.toNat
  n == 0x0009 || n == 0x000B || n == 0x000C || n == 0xFEFF ||
  n == 0x0020 || n == 0x00A0 || n == 0x1680 || (0x2000 ≤ n && n ≤ 0x200A) ||
  n == 0x202F || n == 0x205F || n == 0x3000

/-- ECMAScript `LineTerminator` code points: LF, CR, LS, PS. -/
def isLineTerminator (c : Char) : Bool :=
  let n := c.toNat
  n == 0x000A || n == 0x000D || n == 0x2028 || n == 0x2029

/-- The characters `String.prototype.trim` strips: white space and line terminators. -/
def isTrimmable (c : Char) : Bool :=
  isWhiteSpace c || isLineTerminator c

/-- `TrimString(S, start)`: drop the leading run of trimmable characters. -/
def trimStart (cs : List Char) : List Char :=
  cs.dropWhile isTrimmable

/-- `TrimString(S, end)`: drop the trailing run of trimmable characters. -/
def trimEnd (cs : List Char) : List Char :=
  (cs.reverse.dropWhile isTrimmable).reverse

/-- `s.trim()`: strip the trimmable characters from both ends. -/
def trim (s : String) : String :=
  ⟨trimEnd (trimStart s.data)⟩

/-! ## `App`: the task list -/

/-- A task object `{ id, text, completed }` as built at line 110. -/
structure Task where
  id : String
  text : String
  completed : Bool
  deriving DecidableEq, Repr

/-- The state of `App`: `task` (line 75) is the text field, `tasks` (line 76) the list. -/
structure App where
  task : String
  tasks : List Task
  deriving DecidableEq, Repr

/-- The initial state: `useState('')`, `useState([])`. -/
def App.init : App :=
  { task := "", tasks := [] }

/-- `Date.now().toString()` for the clock reading `now` (milliseconds, an integer). -/
def dateNowToString (now : Nat) : String :=
  toString now

/-- `addTask` (lines 108-113); `now` is what `Date.now()` returns during the call. -/
def addTask (now : Nat) (st : App) : App :=
  if trim st.task = "" then st
  else
    let nueva : Task := { id := dateNowToString now, text := trim st.task, completed := false }
    { task := "", tasks := st.tasks ++ [nueva] }

/-- The updater of `deleteTask` (line 116): `prev.filter((item) => item.id !== id)`. -/
def deleteTask (id : String) (prev : List Task) : List Task :=
  prev.filter (fun item => item.id != id)

/-- The updater of `toggleComplete` (lines 120-122). -/
def toggleComplete (id : String) (prev : List Task) : List Task :=
  prev.map (fun item => if item.id = id then { item with completed := !item.completed } else item)

/-- `pendingCount` (line 104): `tasks.filter((t) => !t.completed).length`. -/
def pendingCount (tasks : List Task) : Nat :=
  (tasks.filter (fun t => !t.completed)).length

/-- `countMessage` (line 105). -/
def countMessage (tasks : List Task) : String :=
  if pendingCount tasks = 0 then "No hay tareas pendientes"
  else "Tareas pendientes: " ++ toString (pendingCount tasks)

/-- `showTooMany` (line 106). -/
def showTooMany (tasks : List Task) : Bool :=
  decide (pendingCount tasks > 5)

/-- The warning element of line 139: rendered only when `showTooMany` holds. -/
def warningMessage (tasks : List Task) : Option String :=
  if showTooMany tasks then some "Demasiadas tareas pendientes" else none

/-- The events that change the state of `App`. -/
inductive Action where
  | setTask (text : String)
  | addTask (now : Nat)
  | deleteTask (id : String)
  | toggleComplete (id : String)
  deriving DecidableEq, Repr

/-- One event applied to the state. -/
def step (st : App) : Action → App
  | .setTask text => { st with task := text }
  | .addTask now => addTask now st
  | .deleteTask id => { st with tasks := deleteTask id st.tasks }
  | .toggleComplete id => { st with tasks := toggleComplete id st.tasks }

/-- A sequence of events applied in order. -/
def run (st : App) (actions : List Action) : App :=
  actions.foldl step st

/-! ## `TodoItem`: the diagonal line

JavaScript numbers are idealised as real numbers: `Math.sqrt`, `Math.atan2` and `Math.PI` are
the exact functions and constant that the IEEE 754 ones approximate.  Rounding can make two
nearby inputs give the same result, so order properties of the geometry are stated with `≤`. -/

noncomputable section

/-- `Math.sqrt`. -/
def Math.sqrt (x : ℝ) : ℝ :=
  Real.sqrt x

/-- `Math.PI`. -/
def Math.PI : ℝ :=
  Real.pi

/-- `Math.max` of two numbers. -/
def Math.max (a b : ℝ) : ℝ :=
  if a ≤ b then b else a

/-- `Math.atan2(y, x)`: the angle in `(-π, π]` of the point `(x, y)`, with `atan2(0, 0) = 0`. -/
def Math.atan2 (y x : ℝ) : ℝ :=
  if 0 < x then Real.arctan (y / x)
  else if x < 0 then
    if 0 ≤ y then Real.arctan (y / x) + Real.pi else Real.arctan (y / x) - Real.pi
  else if 0 < y then Real.pi / 2
  else if y < 0 then -(Real.pi / 2)
  else 0

/-- The measured rectangle `layout` of a row (line 15). -/
structure Layout where
  width : ℝ
  height : ℝ

/-- The numeric entries of a React Native style object; `rotate` is in degrees. -/
structure Style where
  width : Option ℝ := none
  height : Option ℝ := none
  left : Option ℝ := none
  top : Option ℝ := none
  rotate : Option ℝ := none

/-- One entry of a style array: the later value wins when it is present. -/
def Style.override (base later : Option ℝ) : Option ℝ :=
  match later with
  | some v => some v
  | none => base

/-- Two consecutive entries of a style array merged. -/
def Style.merge (base later : Style) : Style :=
  { width := Style.override base.width later.width
    height := Style.override base.height later.height
    left := Style.override base.left later.left
    top := Style.override base.top later.top
    rotate := Style.override base.rotate later.rotate }

/-- A style array `[s1, s2, ...]` resolved left to right. -/
def Style.flatten (styles : List Style) : Style :=
  styles.foldl Style.merge {}

/-- `styles.diagonalLine` (lines 209-215); its only numeric geometry entry is `height: 2`. -/
def styles.diagonalLine : Style :=
  { height := some 2 }

namespace TodoItem

/-- `useState({ width: 0, height: 0 })` (line 15). -/
def initLayout : Layout :=
  { width := 0, height := 0 }

/-- The `onLayout` handler (lines 35-38): the state is replaced only by a different rectangle. -/
def onLayout (layout : Layout) (width height : ℝ) : Layout :=
  if width ≠ layout.width ∨ height ≠ layout.height then { width := width, height := height }
  else layout

/-- `LINE_HEIGHT` (line 17). -/
def LINE_HEIGHT : ℝ := 1

/-- `EXTRA` (line 18). -/
def EXTRA : ℝ := 6

/-- `SHIFT_RATIO` (line 19). -/
def SHIFT_RATIO : ℝ := 0.015

/-- `diagonal` (line 21). -/
def diagonal (layout : Layout) : ℝ :=
  Math.sqrt (layout.width * layout.width + layout.height * layout.height)

/-- `barWidth` (line 22). -/
def barWidth (layout : Layout) : ℝ :=
  diagonal layout + EXTRA

/-- `angleDeg` (line 23). -/
def angleDeg (layout : Layout) : ℝ :=
  if layout.width = 0 then 0 else (Math.atan2 layout.height layout.width * 180) / Math.PI

/-- `proportionalOffset` (line 25). -/
def proportionalOffset (layout : Layout) : ℝ :=
  layout.width * SHIFT_RATIO

/-- `densityAdjustment` (line 26); `pixelRatio` is what `PixelRatio.get()` returns. -/
def densityAdjustment (pixelRatio : ℝ) : ℝ :=
  Math.max 1 pixelRatio * 0.5

/-- `RIGHT_SHIFT` (line 27). -/
def RIGHT_SHIFT (layout : Layout) (pixelRatio : ℝ) : ℝ :=
  proportionalOffset layout + densityAdjustment pixelRatio

/-- The inline style object of the line (lines 58-64). -/
def lineStyle (layout : Layout) (pixelRatio : ℝ) : Style :=
  { width := some (barWidth layout)
    height := some LINE_HEIGHT
    left := some ((layout.width - barWidth layout) / 2 + RIGHT_SHIFT layout pixelRatio)
    top := some ((layout.height - LINE_HEIGHT) / 2)
    rotate := some (angleDeg layout) }

/-- The line layer of the row (lines 53-67): the resolved style of the `View` that draws the
line, or `none` when the conditional renders nothing. -/
def diagonalLine (item : Task) (layout : Layout) (pixelRatio : ℝ) : Option Style :=
  if item.completed = true ∧ layout.width > 0 ∧ layout.height > 0 then
    some (Style.flatten [styles.diagonalLine, lineStyle layout pixelRatio])
  else none

end TodoItem

end

/-! ## Specification predicates -/

/-- The text of a task is well formed: not empty, not made of trimmable characters only, and
equal to its own trimmed form. -/
def Task.TextOk (t : Task) : Prop :=
  t.text ≠ "" ∧ t.text.data.all isTrimmable = false ∧ trim t.text = t.text

/-- No two tasks of the list carry the same id. -/
def UniqueIds (tasks : List Task) : Prop :=
  (tasks.map Task.id).Nodup

/-! ## Lemmas on `trim` -/

theorem trimEnd_eq_rdropWhile (cs : List Char) : trimEnd cs = cs.rdropWhile isTrimmable := rfl

theorem trimStart_trimStart (cs : List Char) : trimStart (trimStart cs) = trimStart cs :=
  List.dropWhile_idempotent _ _

theorem trimEnd_trimEnd (cs : List Char) : trimEnd (trimEnd cs) = trimEnd cs := by
  simp only [trimEnd_eq_rdropWhile]; exact List.rdropWhile_idempotent _ _

/-- Trimming the end of a start-trimmed list leaves it start-trimmed. -/
theorem trimStart_trimEnd_trimStart (cs : List Char) :
    trimStart (trimEnd (trimStart cs)) = trimEnd (trimStart cs) := by
  have hpre : trimEnd (trimStart cs) <+: trimStart cs := by
    rw [trimEnd_eq_rdropWhile]; exact List.rdropWhile_prefix _ _
  obtain ⟨r, hr⟩ := hpre
  cases hm : trimEnd (trimStart cs) with
  | nil => rfl
  | cons a m =>
    have hhead := List.head?_dropWhile_not isTrimmable cs
    have hl : trimStart cs = a :: (m ++ r) := by rw [← hr, hm]; rfl
    unfold trimStart at hl
    rw [hl] at hhead
    simp only [List.head?_cons] at hhead
    simp [trimStart, List.dropWhile, hhead]

theorem trim_data (s : String) : (trim s).data = trimEnd (trimStart s.data) := rfl

theorem trim_trim (s : String) : trim (trim s) = trim s := by
  apply String.ext
  rw [trim_data, trim_data, trimStart_trimEnd_trimStart, trimEnd_trimEnd]

/-- A string all of whose characters are trimmable trims to the empty string. -/
theorem trim_eq_empty_of_all (s : String) (h : s.data.all isTrimmable = true) : trim s = "" := by
  apply String.ext
  have h1 : trimStart s.data = [] := by
    unfold trimStart
    rw [List.dropWhile_eq_nil_iff]
    simpa using h
  rw [trim_data, h1]; rfl

/-! ## Lemmas on the task list -/

theorem addTask_of_blank (now : Nat) (st : App) (h : trim st.task = "") : addTask now st = st := by
  simp [addTask, h]

theorem addTask_of_not_blank (now : Nat) (st : App) (h : trim st.task ≠ "") :
    addTask now st =
      { task := "",
        tasks := st.tasks ++ [{ id := dateNowToString now, text := trim st.task,
                                completed := false }] } := by
  simp [addTask, h]

/-- What `addTask` stores satisfies the text invariant. -/
theorem textOk_nueva (id : String) (s : String) (h : trim s ≠ "") :
    Task.TextOk { id := id, text := trim s, completed := false } := by
  refine ⟨h, ?_, trim_trim s⟩
  cases hall : (trim s).data.all isTrimmable with
  | false => rfl
  | true =>
    have h1 := trim_eq_empty_of_all (trim s) hall
    rw [trim_trim] at h1
    exact absurd h1 h

theorem step_textOk (st : App) (a : Action) (h : ∀ t ∈ st.tasks, Task.TextOk t) :
    ∀ t ∈ (step st a).tasks, Task.TextOk t := by
  intro t ht
  cases a with
  | setTask text => exact h t ht
  | addTask now =>
    by_cases hb : trim st.task = ""
    · simp only [step, addTask_of_blank now st hb] at ht
      exact h t ht
    · simp only [step, addTask_of_not_blank now st hb, List.mem_append,
        List.mem_singleton] at ht
      rcases ht with ht | rfl
      · exact h t ht
      · exact textOk_nueva _ _ hb
  | deleteTask id =>
    simp only [step, deleteTask] at ht
    exact h t (List.mem_of_mem_filter ht)
  | toggleComplete id =>
    simp only [step, toggleComplete, List.mem_map] at ht
    obtain ⟨item, hitem, rfl⟩ := ht
    by_cases hid : item.id = id
    · simp only [hid, if_true]
      exact h item hitem
    · simp only [hid, if_false]
      exact h item hitem

theorem run_textOk (actions : List Action) (st : App) (h : ∀ t ∈ st.tasks, Task.TextOk t) :
    ∀ t ∈ (run st actions).tasks, Task.TextOk t := by
  induction actions generalizing st with
  | nil => exact h
  | cons a rest ih => exact ih (step st a) (step_textOk st a h)

/-! ## The task list: `addTask`, `toggleComplete`, `deleteTask`, the pending count -/

/-- C5: `addTask` leaves the state (so the list) unchanged when the input trims to the empty
string, and otherwise appends exactly one task, with text `trim s` and `completed = false`, after
the unchanged earlier tasks. `"  Buy milk  "` is stored as `"Buy milk"`; `""` and `"   "` are
no-ops. -/
theorem addTask_spec (now : Nat) (s : String) (l : List Task) :
    (trim s = "" → addTask now { task := s, tasks := l } = { task := s, tasks := l }) ∧
    (trim s ≠ "" →
      (addTask now { task := s, tasks := l }).tasks =
        l ++ [{ id := dateNowToString now, text := trim s, completed := false }]) ∧
    (addTask now { task := "  Buy milk  ", tasks := l }).tasks =
        l ++ [{ id := dateNowToString now, text := "Buy milk", completed := false }] ∧
    (addTask now { task := "", tasks := l }).tasks = l ∧
    (addTask now { task := "   ", tasks := l }).tasks = l := by
  refine ⟨fun h => addTask_of_blank now _ h, fun h => ?_, ?_, ?_, ?_⟩
  · rw [addTask_of_not_blank now _ h]
  · have hne : trim "  Buy milk  " ≠ "" := by decide
    have htrim : trim "  Buy milk  " = "Buy milk" := by decide
    rw [addTask_of_not_blank now _ hne]
    simp only [htrim]
  · have hb : trim "" = "" := by decide
    rw [addTask_of_blank now _ hb]
  · have hb : trim "   " = "" := by decide
    rw [addTask_of_blank now _ hb]

/-- Witness of C5 at the inputs `"   "`, `"  Buy milk  "` and an empty list. -/
theorem addTask_spec_witness :
    trim "   " = "" ∧ trim "  Buy milk  " ≠ "" ∧
    addTask 7 { task := "   ", tasks := [] } = { task := "   ", tasks := [] } ∧
    (addTask 7 { task := "  Buy milk  ", tasks := [] }).tasks =
      [{ id := "7", text := "Buy milk", completed := false }] :=
  ⟨by decide, by decide, (addTask_spec 7 "   " []).1 (by decide),
    ((addTask_spec 7 "  Buy milk  " []).2.1 (by decide)).trans (by decide)⟩

/-- C6: toggling the same id twice gives back the original list, and one toggle keeps the ids,
the texts, the length and the order of the list. -/
theorem toggleComplete_spec (id : String) (l : List Task) :
    toggleComplete id (toggleComplete id l) = l ∧
    (toggleComplete id l).map Task.id = l.map Task.id ∧
    (toggleComplete id l).map Task.text = l.map Task.text ∧
    (toggleComplete id l).length = l.length := by
  refine ⟨?_, ?_, ?_, ?_⟩
  · induction l with
    | nil => rfl
    | cons t rest ih =>
      simp only [toggleComplete, List.map_cons, List.map_map] at ih ⊢
      rw [ih]
      by_cases h : t.id = id
      · cases t
        simp_all
      · simp [h]
  · simp only [toggleComplete, List.map_map]
    apply List.map_congr_left
    intro t _
    by_cases h : t.id = id <;> simp [h]
  · simp only [toggleComplete, List.map_map]
    apply List.map_congr_left
    intro t _
    by_cases h : t.id = id <;> simp [h]
  · simp [toggleComplete]

/-- C7: deleting an id that no task carries returns the list itself, and deleting the same id
a second time changes nothing. -/
theorem deleteTask_spec (id : String) (l : List Task) :
    ((∀ t ∈ l, t.id ≠ id) → deleteTask id l = l) ∧
    deleteTask id (deleteTask id l) = deleteTask id l := by
  constructor
  · intro h
    simp only [deleteTask, List.filter_eq_self]
    intro t ht
    simpa using h t ht
  · simp [deleteTask, List.filter_filter]

/-- Witness of C7: id `"3"` is absent from a two-task list. -/
theorem deleteTask_spec_witness :
    (∀ t ∈ [({ id := "1", text := "a", completed := false } : Task),
            { id := "2", text := "b", completed := true }], t.id ≠ "3") ∧
    deleteTask "3" [{ id := "1", text := "a", completed := false },
                    { id := "2", text := "b", completed := true }] =
      [{ id := "1", text := "a", completed := false },
       { id := "2", text := "b", completed := true }] :=
  ⟨by decide, (deleteTask_spec "3" _).1 (by decide)⟩

/-- The count variant of the message never reads as the "no pending" variant. -/
theorem count_text_ne_none_text (x : String) :
    "Tareas pendientes: " ++ x ≠ "No hay tareas pendientes" := by
  intro h
  have h1 : ("Tareas pendientes: " ++ x).data.head? = some 'T' := by
    cases x; rfl
  rw [h] at h1
  exact absurd h1 (by decide)

/-- C8: with `n` the number of tasks whose `completed` flag is false, the count message is
`No hay tareas pendientes` exactly when `n = 0` and `Tareas pendientes: n` otherwise; the
warning is rendered exactly when `n > 5`, so it is present next to the count message at `n = 6`
and absent at `n = 5`. -/
theorem countMessage_spec (tasks : List Task) :
    pendingCount tasks = tasks.countP (fun t => t.completed = false) ∧
    (countMessage tasks = "No hay tareas pendientes" ↔ pendingCount tasks = 0) ∧
    (pendingCount tasks ≠ 0 →
      countMessage tasks = "Tareas pendientes: " ++ toString (pendingCount tasks)) ∧
    (warningMessage tasks = some "Demasiadas tareas pendientes" ↔ pendingCount tasks > 5) ∧
    (warningMessage tasks = none ↔ pendingCount tasks ≤ 5) ∧
    (pendingCount tasks = 6 →
      countMessage tasks = "Tareas pendientes: 6" ∧
      warningMessage tasks = some "Demasiadas tareas pendientes") ∧
    (pendingCount tasks = 5 →
      countMessage tasks = "Tareas pendientes: 5" ∧ warningMessage tasks = none) := by
  refine ⟨?_, ?_, ?_, ?_, ?_, ?_, ?_⟩
  · simp [pendingCount, List.countP_eq_length_filter]
  · constructor
    · intro h
      by_contra hn
      simp only [countMessage, hn, if_false] at h
      exact count_text_ne_none_text _ h
    · intro h
      simp [countMessage, h]
  · intro h
    simp [countMessage, h]
  · by_cases h : pendingCount tasks > 5
    · simp [warningMessage, showTooMany, h]
    · simp [warningMessage, showTooMany, h]
  · by_cases h : pendingCount tasks > 5
    · simp [warningMessage, showTooMany, h]
    · simp [warningMessage, showTooMany, h]; omega
  · intro h
    simp only [countMessage, warningMessage, showTooMany, h]
    decide
  · intro h
    simp only [countMessage, warningMessage, showTooMany, h]
    decide

/-- Witness of C8: six pending tasks and one completed task. -/
theorem countMessage_spec_witness :
    pendingCount ((List.replicate 6 { id := "1", text := "a", completed := false }) ++
      [{ id := "2", text := "b", completed := true }]) = 6 ∧
    countMessage ((List.replicate 6 { id := "1", text := "a", completed := false }) ++
      [{ id := "2", text := "b", completed := true }]) = "Tareas pendientes: 6" ∧
    warningMessage ((List.replicate 6 { id := "1", text := "a", completed := false }) ++
      [{ id := "2", text := "b", completed := true }]) = some "Demasiadas tareas pendientes" :=
  ⟨by decide, (countMessage_spec _).2.2.2.2.2.1 (by decide)⟩

/-- C9 (the code at the failing input): two `addTask` calls that read the same clock value
`1000` store two tasks with the same id `"1000"`; the list does not have unique ids, and
deleting or toggling that id then acts on both tasks. -/
theorem addTask_same_clock_duplicate_id :
    (run App.init [.setTask "a", .addTask 1000, .setTask "b", .addTask 1000]).tasks =
      [{ id := "1000", text := "a", completed := false },
       { id := "1000", text := "b", completed := false }] ∧
    ¬ UniqueIds
      (run App.init [.setTask "a", .addTask 1000, .setTask "b", .addTask 1000]).tasks ∧
    (run App.init [.setTask "a", .addTask 1000, .setTask "b", .addTask 1000,
      .deleteTask "1000"]).tasks = [] ∧
    (run App.init [.setTask "a", .addTask 1000, .setTask "b", .addTask 1000,
      .toggleComplete "1000"]).tasks =
      [{ id := "1000", text := "a", completed := true },
       { id := "1000", text := "b", completed := true }] := by
  refine ⟨by decide, ?_, by decide, by decide⟩
  have h : (run App.init [.setTask "a", .addTask 1000, .setTask "b", .addTask 1000]).tasks =
      [{ id := "1000", text := "a", completed := false },
       { id := "1000", text := "b", completed := false }] := by decide
  rw [h]
  simp [UniqueIds]

/-- C10: in every state reached from the initial one by typing, adding, toggling and deleting,
the text of every task is not empty, is not made of trimmable characters only, and equals its
own trimmed form. -/
theorem text_invariant (actions : List Action) (t : Task)
    (ht : t ∈ (run App.init actions).tasks) :
    t.text ≠ "" ∧ t.text.data.all isTrimmable = false ∧ trim t.text = t.text :=
  run_textOk actions App.init (by simp [App.init]) t ht

/-- Witness of C10: the task stored by typing `" a "` and pressing the button at clock `5`. -/
theorem text_invariant_witness :
    ({ id := "5", text := "a", completed := false } : Task) ∈
      (run App.init [.setTask " a ", .addTask 5]).tasks ∧
    ("a" ≠ "" ∧ "a".data.all isTrimmable = false ∧ trim "a" = "a") :=
  ⟨by decide, text_invariant [.setTask " a ", .addTask 5]
    { id := "5", text := "a", completed := false } (by decide)⟩

/-! ## Lemmas on the geometry -/

theorem Math.atan2_of_pos (y x : ℝ) (hx : 0 < x) : Math.atan2 y x = Real.arctan (y / x) := by
  simp [Math.atan2, hx]

theorem Math.max_one_of_le (d : ℝ) (hd : d ≤ 1) : Math.max 1 d = 1 := by
  unfold Math.max
  split_ifs with h
  · exact le_antisymm hd h
  · rfl

theorem TodoItem.angleDeg_of_pos (layout : Layout) (hw : 0 < layout.width) :
    TodoItem.angleDeg layout = Real.arctan (layout.height / layout.width) * 180 / Real.pi := by
  simp [TodoItem.angleDeg, ne_of_gt hw, Math.atan2_of_pos _ _ hw, Math.PI]

theorem TodoItem.angleDeg_height_zero (w : ℝ) (hw : 0 ≤ w) :
    TodoItem.angleDeg { width := w, height := 0 } = 0 := by
  rcases eq_or_lt_of_le hw with h | h
  · simp [TodoItem.angleDeg, ← h]
  · rw [TodoItem.angleDeg_of_pos _ h]
    simp

/-- The style array of the line resolves to the inline object: its `height` replaces the
`height: 2` of `styles.diagonalLine`. -/
theorem TodoItem.flatten_lineStyle (layout : Layout) (d : ℝ) :
    Style.flatten [styles.diagonalLine, TodoItem.lineStyle layout d] =
      TodoItem.lineStyle layout d := by
  simp [Style.flatten, Style.merge, Style.override, styles.diagonalLine, TodoItem.lineStyle]

theorem arctan_inv_seven_lower : (0.14173 : ℝ) < Real.arctan (1 / 7) := by
  have ha : |(0.14173 : ℝ)| ≤ 1 := by rw [abs_of_pos] <;> norm_num
  have hs := Real.sin_bound ha
  have hc := Real.cos_bound ha
  rw [abs_of_pos (by norm_num : (0 : ℝ) < 0.14173)] at hs hc
  have hs1 := (abs_le.mp hs).2
  have hc1 := (abs_le.mp hc).1
  have hcpos : 0 < Real.cos 0.14173 := by norm_num at hc1 ⊢; linarith
  have htan : Real.tan 0.14173 < 1 / 7 := by
    rw [Real.tan_eq_sin_div_cos, div_lt_iff₀ hcpos]
    norm_num at hs1 hc1 ⊢
    linarith
  have hpi := Real.pi_gt_three
  have h := Real.arctan_strictMono htan
  rwa [Real.arctan_tan (by linarith) (by linarith)] at h

theorem arctan_inv_seven_upper : Real.arctan (1 / 7) < (0.14206 : ℝ) := by
  have ha : |(0.14206 : ℝ)| ≤ 1 := by rw [abs_of_pos] <;> norm_num
  have hs := Real.sin_bound ha
  have hc := Real.cos_bound ha
  rw [abs_of_pos (by norm_num : (0 : ℝ) < 0.14206)] at hs hc
  have hs1 := (abs_le.mp hs).1
  have hc1 := (abs_le.mp hc).2
  have hc2 := (abs_le.mp hc).1
  have hcpos : 0 < Real.cos 0.14206 := by norm_num at hc2 ⊢; linarith
  have htan : 1 / 7 < Real.tan 0.14206 := by
    rw [Real.tan_eq_sin_div_cos, lt_div_iff₀ hcpos]
    norm_num at hs1 hc1 ⊢
    linarith
  have hpi := Real.pi_gt_three
  have h := Real.arctan_strictMono htan
  rwa [Real.arctan_tan (by linarith) (by linarith)] at h

theorem arctan_four_thirds : Real.arctan (4 / 3) = Real.pi / 4 + Real.arctan (1 / 7) := by
  rw [← Real.arctan_one, Real.arctan_add (by norm_num)]
  norm_num

/-- The angle of the 3-by-4 rectangle, in degrees, is within 0.01 of 53.13. -/
theorem arctan_four_thirds_degrees : |Real.arctan (4 / 3) * 180 / Real.pi - 53.13| < 0.01 := by
  have hlo := arctan_inv_seven_lower
  have hhi := arctan_inv_seven_upper
  have h1 := Real.pi_gt_d6
  have h2 := Real.pi_lt_d6
  have hpos : (0 : ℝ) < Real.pi := Real.pi_pos
  rw [arctan_four_thirds, abs_lt]
  constructor
  · rw [lt_sub_iff_add_lt, lt_div_iff₀ hpos]
    norm_num
    linarith
  · rw [sub_lt_iff_lt_add, div_lt_iff₀ hpos]
    norm_num
    linarith

theorem TodoItem.barWidth_three_four :
    TodoItem.barWidth { width := 3, height := 4 } = 11 := by
  have h : Real.sqrt (3 * 3 + 4 * 4) = 5 := by
    rw [show (3 * 3 + 4 * 4 : ℝ) = 5 ^ 2 by norm_num]
    exact Real.sqrt_sq (by norm_num)
  simp only [TodoItem.barWidth, TodoItem.diagonal, Math.sqrt, TodoItem.EXTRA, h]
  norm_num

theorem TodoItem.RIGHT_SHIFT_of_le_one (layout : Layout) (d : ℝ) (hd : d ≤ 1) :
    TodoItem.RIGHT_SHIFT layout d = layout.width * 0.015 + 0.5 := by
  simp only [TodoItem.RIGHT_SHIFT, TodoItem.proportionalOffset, TodoItem.densityAdjustment,
    TodoItem.SHIFT_RATIO, Math.max_one_of_le d hd]
  norm_num

/-! ## The diagonal line of `TodoItem` -/

/-- C1: for a completed task and a measured rectangle with `width > 0` and `height > 0`, the
rendered line has width `sqrt(width^2 + height^2) + 6`, height `1`, rotation
`atan2(height, width) * 180 / pi` degrees, `left = (width - length) / 2 + width * 0.015 +
max(1, d) * 0.5` and `top = (height - 1) / 2`. For width 3, height 4, density 1 the length is
11, the horizontal offset is 0.545 and the rotation is within 0.01 of 53.13 degrees. -/
theorem diagonalLine_spec :
    (∀ (item : Task) (layout : Layout) (d : ℝ),
      item.completed = true → layout.width > 0 → layout.height > 0 →
      TodoItem.diagonalLine item layout d = some
        { width := some (Real.sqrt (layout.width ^ 2 + layout.height ^ 2) + 6)
          height := some 1
          left := some ((layout.width - (Real.sqrt (layout.width ^ 2 + layout.height ^ 2) + 6)) / 2
                    + layout.width * 0.015 + max 1 d * 0.5)
          top := some ((layout.height - 1) / 2)
          rotate := some (Math.atan2 layout.height layout.width * 180 / Real.pi) } ∧
      Math.atan2 layout.height layout.width = Real.arctan (layout.height / layout.width)) ∧
    TodoItem.diagonal { width := 3, height := 4 } = 5 ∧
    TodoItem.barWidth { width := 3, height := 4 } = 11 ∧
    TodoItem.RIGHT_SHIFT { width := 3, height := 4 } 1 = 0.545 ∧
    |TodoItem.angleDeg { width := 3, height := 4 } - 53.13| < 0.01 := by
  refine ⟨?_, ?_, TodoItem.barWidth_three_four, ?_, ?_⟩
  · intro item layout d hc hw hh
    refine ⟨?_, Math.atan2_of_pos _ _ hw⟩
    have hmax : Math.max 1 d = max 1 d := by
      unfold Math.max
      split_ifs with h
      · exact (max_eq_right h).symm
      · exact (max_eq_left (le_of_not_le h)).symm
    have hne : layout.width ≠ 0 := ne_of_gt hw
    have hcond : item.completed = true ∧ layout.width > 0 ∧ layout.height > 0 := ⟨hc, hw, hh⟩
    rw [TodoItem.diagonalLine, if_pos hcond, TodoItem.flatten_lineStyle]
    simp only [TodoItem.lineStyle, TodoItem.barWidth, TodoItem.diagonal,
      TodoItem.EXTRA, TodoItem.LINE_HEIGHT, TodoItem.RIGHT_SHIFT, TodoItem.proportionalOffset,
      TodoItem.densityAdjustment, TodoItem.SHIFT_RATIO, TodoItem.angleDeg, Math.sqrt, Math.PI,
      hmax, hne, if_false, ← pow_two, ← add_assoc]
  · have h := TodoItem.barWidth_three_four
    simp only [TodoItem.barWidth, TodoItem.EXTRA] at h
    linarith
  · rw [TodoItem.RIGHT_SHIFT_of_le_one _ 1 le_rfl]
    norm_num
  · rw [TodoItem.angleDeg_of_pos _ (by norm_num)]
    exact arctan_four_thirds_degrees

/-- Witness of C1: a completed task in a 3-by-4 rectangle at density 1. -/
theorem diagonalLine_spec_witness :
    (TodoItem.diagonalLine { id := "1", text := "a", completed := true }
      { width := 3, height := 4 } 1).isSome = true := by
  have h := (diagonalLine_spec.1 { id := "1", text := "a", completed := true }
    { width := 3, height := 4 } 1 rfl (by norm_num) (by norm_num)).1
  rw [h]
  rfl

/-- C2: the line is rendered if and only if the task is completed and `width > 0` and
`height > 0`; a zero or negative width or height gives no line. -/
theorem diagonalLine_isSome_iff (item : Task) (layout : Layout) (d : ℝ) :
    ((TodoItem.diagonalLine item layout d).isSome = true ↔
      item.completed = true ∧ layout.width > 0 ∧ layout.height > 0) ∧
    (layout.width = 0 ∨ layout.height = 0 → TodoItem.diagonalLine item layout d = none) ∧
    (layout.width < 0 ∨ layout.height < 0 → TodoItem.diagonalLine item layout d = none) := by
  have key : ¬ (item.completed = true ∧ layout.width > 0 ∧ layout.height > 0) →
      TodoItem.diagonalLine item layout d = none := by
    intro h
    simp only [TodoItem.diagonalLine, h, if_false]
  refine ⟨?_, ?_, ?_⟩
  · by_cases h : item.completed = true ∧ layout.width > 0 ∧ layout.height > 0
    · simp only [TodoItem.diagonalLine, h, and_self, if_true, Option.isSome_some]
    · simp only [key h, h, Option.isSome_none]
      simp
  · rintro (h | h)
    · exact key (fun hc => absurd h (ne_of_gt hc.2.1))
    · exact key (fun hc => absurd h (ne_of_gt hc.2.2))
  · rintro (h | h)
    · exact key (fun hc => absurd h (not_lt_of_gt hc.2.1))
    · exact key (fun hc => absurd h (not_lt_of_gt hc.2.2))

/-- Witness of C2: a completed task measured with width `-1` and with height `0`. -/
theorem diagonalLine_isSome_iff_witness :
    TodoItem.diagonalLine { id := "1", text := "a", completed := true }
      { width := -1, height := 5 } 2 = none ∧
    TodoItem.diagonalLine { id := "1", text := "a", completed := true }
      { width := 5, height := 0 } 2 = none :=
  ⟨(diagonalLine_isSome_iff _ { width := -1, height := 5 } 2).2.2 (Or.inl (by norm_num)),
    (diagonalLine_isSome_iff _ { width := 5, height := 0 } 2).2.1 (Or.inr rfl)⟩

/-- C3 (as stated, refuted): at height 0 the angle is 0 at widths 1 and 2, so it does not
decrease from width 1 to width 2; and at height 1 the guard gives angle 0 at width 0 while the
angle at width 1 is 45, so it grows from width 0 to width 1. -/
theorem angleDeg_not_decreasing :
    ((0 : ℝ) ≤ 0 ∧ (0 : ℝ) ≤ 1 ∧ (1 : ℝ) < 2 ∧
      TodoItem.angleDeg { width := 1, height := 0 } = 0 ∧
      TodoItem.angleDeg { width := 2, height := 0 } = 0 ∧
      ¬ (TodoItem.angleDeg { width := 2, height := 0 } <
          TodoItem.angleDeg { width := 1, height := 0 })) ∧
    ((0 : ℝ) ≤ 1 ∧ (0 : ℝ) ≤ 0 ∧ (0 : ℝ) < 1 ∧
      TodoItem.angleDeg { width := 0, height := 1 } = 0 ∧
      TodoItem.angleDeg { width := 1, height := 1 } = 45 ∧
      ¬ (TodoItem.angleDeg { width := 1, height := 1 } <
          TodoItem.angleDeg { width := 0, height := 1 })) := by
  have h1 := TodoItem.angleDeg_height_zero 1 (by norm_num)
  have h2 := TodoItem.angleDeg_height_zero 2 (by norm_num)
  have h3 : TodoItem.angleDeg { width := 0, height := 1 } = 0 := by simp [TodoItem.angleDeg]
  have h4 : TodoItem.angleDeg { width := 1, height := 1 } = 45 := by
    rw [TodoItem.angleDeg_of_pos _ (by norm_num)]
    simp only [div_one, Real.arctan_one]
    have hpi : Real.pi ≠ 0 := Real.pi_ne_zero
    field_simp
    ring
  refine ⟨⟨le_rfl, by norm_num, by norm_num, h1, h2, ?_⟩,
    ⟨by norm_num, le_rfl, by norm_num, h3, h4, ?_⟩⟩
  · rw [h1, h2]; exact lt_irrefl 0
  · rw [h3, h4]; norm_num

/-- C3 (amended): for a fixed height `h ≥ 0` and widths `0 ≤ w1 < w2` the length at `w2` is
never smaller than at `w1`; when moreover `w1 > 0` the angle at `w2` is never greater than at
`w1`; at height 0 the two angles are equal. The order is not claimed strict: the code computes
in binary64, where two nearby widths can give the same length and the same angle. -/
theorem geometry_monotone (h w1 w2 : ℝ) (hh : 0 ≤ h) (hw1 : 0 ≤ w1) (hlt : w1 < w2) :
    TodoItem.barWidth { width := w1, height := h } ≤
      TodoItem.barWidth { width := w2, height := h } ∧
    (0 < w1 →
      TodoItem.angleDeg { width := w2, height := h } ≤
        TodoItem.angleDeg { width := w1, height := h }) ∧
    (h = 0 →
      TodoItem.angleDeg { width := w2, height := h } =
        TodoItem.angleDeg { width := w1, height := h }) := by
  refine ⟨?_, ?_, ?_⟩
  · simp only [TodoItem.barWidth, TodoItem.diagonal, Math.sqrt, add_le_add_iff_right]
    apply Real.sqrt_le_sqrt
    have hmul : w1 * w1 ≤ w2 * w2 := mul_le_mul hlt.le hlt.le hw1 (hw1.trans hlt.le)
    linarith
  · intro hw1pos
    have hw2pos : 0 < w2 := lt_trans hw1pos hlt
    rw [TodoItem.angleDeg_of_pos _ hw2pos, TodoItem.angleDeg_of_pos _ hw1pos]
    have hdiv : h / w2 ≤ h / w1 := div_le_div_of_nonneg_left hh hw1pos hlt.le
    have harc : Real.arctan (h / w2) ≤ Real.arctan (h / w1) :=
      Real.arctan_strictMono.monotone hdiv
    have hpi : (0 : ℝ) < Real.pi := Real.pi_pos
    apply div_le_div_of_nonneg_right _ hpi.le
    linarith
  · intro h0
    subst h0
    rw [TodoItem.angleDeg_height_zero w1 hw1,
      TodoItem.angleDeg_height_zero w2 (le_of_lt (lt_of_le_of_lt hw1 hlt))]

/-- Witness of C3 (amended): height 1, widths 1 and 2. -/
theorem geometry_monotone_witness :
    TodoItem.barWidth { width := 1, height := 1 } ≤
      TodoItem.barWidth { width := 2, height := 1 } ∧
    TodoItem.angleDeg { width := 2, height := 1 } ≤
      TodoItem.angleDeg { width := 1, height := 1 } :=
  ⟨(geometry_monotone 1 1 2 (by norm_num) (by norm_num) (by norm_num)).1,
    (geometry_monotone 1 1 2 (by norm_num) (by norm_num) (by norm_num)).2.1 (by norm_num)⟩

/-- C4: for every width the horizontal offset at density 0, 0.5 and 1 is
`width * 0.015 + 0.5`, and every density `d ≤ 1` gives the same offset as density 1. -/
theorem RIGHT_SHIFT_density_clamp (layout : Layout) :
    TodoItem.RIGHT_SHIFT layout 0 = layout.width * 0.015 + 0.5 ∧
    TodoItem.RIGHT_SHIFT layout 0.5 = layout.width * 0.015 + 0.5 ∧
    TodoItem.RIGHT_SHIFT layout 1 = layout.width * 0.015 + 0.5 ∧
    (∀ d : ℝ, d ≤ 1 → TodoItem.RIGHT_SHIFT layout d = TodoItem.RIGHT_SHIFT layout 1) := by
  refine ⟨TodoItem.RIGHT_SHIFT_of_le_one layout 0 (by norm_num),
    TodoItem.RIGHT_SHIFT_of_le_one layout 0.5 (by norm_num),
    TodoItem.RIGHT_SHIFT_of_le_one layout 1 le_rfl, ?_⟩
  intro d hd
  rw [TodoItem.RIGHT_SHIFT_of_le_one layout d hd, TodoItem.RIGHT_SHIFT_of_le_one layout 1 le_rfl]

/-- Witness of C4: density `-2` in a rectangle of width 100. -/
theorem RIGHT_SHIFT_density_clamp_witness :
    ((-2 : ℝ) ≤ 1) ∧
    TodoItem.RIGHT_SHIFT { width := 100, height := 56 } (-2) =
      TodoItem.RIGHT_SHIFT { width := 100, height := 56 } 1 :=
  ⟨by norm_num,
    (RIGHT_SHIFT_density_clamp { width := 100, height := 56 }).2.2.2 (-2) (by norm_num)⟩

end TodoApp
